import Mathlib

/-!
Verification development for the havas-app backend.

The Django models, serializers, signal handlers and view functions that the
spec's testable properties concern are embedded shallowly as Lean functions:
database tables become lists of records, `timezone.now()` becomes an explicit
integer timestamp parameter, serializer validation becomes functions returning
`Except (List FieldError) _`, and HTTP handlers become functions from a
database state and a request to a new database state and a response record.
-/

/-- A serializer validation error attached to a field, as raised by
`serializers.ValidationError` inside a `validate_<field>` method. -/
structure FieldError where
  field : String
  message : String
deriving DecidableEq, Repr

/- ===================== Product catalog (apps/products) ===================== -/

/-- The columns of `Product` that the discount/price logic touches.
`price` and `real_price` are `DecimalField`s, modelled as rationals;
`discount` is an integer percentage. -/
structure Product where
  id : Nat
  price : ℚ
  discount : ℤ
  real_price : ℚ
  is_active : Bool
deriving DecidableEq, Repr

/-- `apps/products/signals.py`, `update_real_price_field`: the `pre_save`
receiver that recomputes `real_price` from `price` and `discount` on every
save of a `Product`. -/
def update_real_price_field (inst : Product) : Product :=
  if inst.discount > 0 then
    let discount_amount : ℚ := inst.price * (inst.discount : ℚ) / 100
    { inst with real_price := inst.price - discount_amount }
  else
    { inst with real_price := inst.price }

/-- `ProductDetailSerializer.get_discount_amount`
(`apps/products/serializers/product_list_create.py`). -/
def get_discount_amount (obj : Product) : ℚ :=
  if obj.discount > 0 then obj.price - obj.real_price else 0

/-- `ProductCreateSerializer.validate_price`. -/
def validate_price (value : ℚ) : Option FieldError :=
  if value ≤ 0 then some ⟨"price", "Price must be greater than 0"⟩ else none

/-- `ProductCreateSerializer.validate_discount`. -/
def validate_discount (value : ℤ) : Option FieldError :=
  if value < 0 ∨ value > 100 then
    some ⟨"discount", "Discount must be between 0 and 100"⟩
  else none

/-- A `Media` row generically attached to a product
(only the ownership link matters for the claims). -/
structure MediaRow where
  owner_product : Nat
  file : String
deriving DecidableEq, Repr

/-- The product tables of the relational store. -/
structure ProductDB where
  products : List Product
  media : List MediaRow
deriving DecidableEq, Repr

/-- `Product.objects.get(pk=pk)` / DRF `get_object` over
`queryset = Product.objects.all()`. -/
def findProduct (db : ProductDB) (pk : Nat) : Option Product :=
  db.products.find? (fun p => p.id == pk)

/-- `ProductListCreateApiView.get_queryset`
(`apps/products/views/product_list_create.py`): only active products. -/
def productListQueryset (db : ProductDB) : List Product :=
  db.products.filter (fun p => p.is_active)

/-- `ProductDetailRetrieveUpdateDestroyAPIView.retrieve`: direct id lookup
over the unfiltered queryset. -/
def productRetrieve (db : ProductDB) (pk : Nat) : Option Product :=
  findProduct db pk

/-- `ProductDetailRetrieveUpdateDestroyAPIView.destroy`
(`apps/products/views/product_detail.py`): fetches the instance, flips
`is_active` to `False` and saves with `update_fields=['is_active']`
(so only that column is written); returns the HTTP status code. -/
def productDestroy (db : ProductDB) (pk : Nat) : ProductDB × Nat :=
  match findProduct db pk with
  | none => (db, 404)
  | some _ =>
      ({ db with
          products := db.products.map
            (fun p => if p.id == pk then { p with is_active := false } else p) },
        204)

/- ===================== Story service (apps/story) ===================== -/

/-- `StoryStatus` choices (`apps/story/models.py`). -/
inductive StoryStatus where
  | DRAFT
  | PUBLISHED
  | ARCHIVED
deriving DecidableEq, Repr

/-- The columns of `Story` that the derived properties, the auto-stamp logic
and the counters touch. Timestamps are integers; `timezone.now()` is passed
explicitly as a `now` parameter to every operation that reads the clock. -/
structure Story where
  id : Nat
  title : String
  status : StoryStatus
  duration : Nat
  published_at : Option Int
  expires_at : Option Int
  is_active : Bool
  is_featured : Bool
  action_url : Option String
  view_count : Nat
  click_count : Nat
deriving DecidableEq, Repr

/-- `Story.is_expired` (`apps/story/models.py`): false when `expires_at` is
null, otherwise `timezone.now() > expires_at`. -/
def Story.is_expired (s : Story) (now : Int) : Bool :=
  match s.expires_at with
  | none => false
  | some e => decide (e < now)

/-- `Story.is_published` (`apps/story/models.py`). -/
def Story.is_published (s : Story) (now : Int) : Bool :=
  s.status == StoryStatus.PUBLISHED && s.is_active && !(s.is_expired now)

/-- `Story.increment_view_count`. -/
def Story.increment_view_count (s : Story) : Story :=
  { s with view_count := s.view_count + 1 }

/-- `Story.increment_click_count`. -/
def Story.increment_click_count (s : Story) : Story :=
  { s with click_count := s.click_count + 1 }

/-- `validate_duration` shared by `StoryCreateSerializer` and
`StoryUpdateSerializer` (`apps/story/serializers/serializers.py`). -/
def story_validate_duration (value : Nat) : Option FieldError :=
  if value < 1 ∨ value > 30 then
    some ⟨"duration", "Duration must be between 1 and 30 seconds"⟩
  else none

/-- `validate_expires_at` shared by `StoryCreateSerializer` and
`StoryUpdateSerializer`: rejects a non-null `expires_at` that is not strictly
in the future (`value <= timezone.now()`). -/
def story_validate_expires_at (now : Int) (value : Option Int) : Option FieldError :=
  match value with
  | none => none
  | some v =>
      if v ≤ now then some ⟨"expires_at", "Expiration date must be in the future"⟩
      else none

/-- The writable fields of `StoryCreateSerializer`
(title, status, duration, published_at, expires_at, is_active, is_featured,
action_url; the untouched display fields are omitted). -/
structure StoryCreateData where
  title : String
  status : StoryStatus
  duration : Nat
  published_at : Option Int
  expires_at : Option Int
  is_active : Bool
  is_featured : Bool
  action_url : Option String
deriving DecidableEq, Repr

/-- `StoryCreateSerializer.validate`: cross-field check that `expires_at` is
after `published_at` when both are supplied. -/
def story_create_cross_validate (d : StoryCreateData) : Option FieldError :=
  match d.published_at, d.expires_at with
  | some published_at, some expires_at =>
      if expires_at ≤ published_at then
        some ⟨"expires_at", "Expiration date must be after publication date"⟩
      else none
  | _, _ => none

/-- `StoryCreateSerializer.create`: auto-set `published_at := now` when the
status being written is PUBLISHED and no `published_at` was supplied, then
build the row (counters start at 0). -/
def story_create_apply (now : Int) (d : StoryCreateData) : Story :=
  let published_at :=
    if d.status = StoryStatus.PUBLISHED ∧ d.published_at = none then some now
    else d.published_at
  { id := 0, title := d.title, status := d.status, duration := d.duration,
    published_at := published_at, expires_at := d.expires_at,
    is_active := d.is_active, is_featured := d.is_featured,
    action_url := d.action_url, view_count := 0, click_count := 0 }

/-- The field-stage errors of `StoryCreateSerializer.is_valid`: every field
validator runs and its errors are collected. -/
def storyCreateFieldErrors (now : Int) (d : StoryCreateData) : List FieldError :=
  (story_validate_duration d.duration).toList
    ++ (story_validate_expires_at now d.expires_at).toList

/-- The full `is_valid` + `save` pipeline of `StoryCreateSerializer`:
per-field validators run first (collecting every field error); the
cross-field `validate` runs only when the field stage passed. -/
def storyCreate (now : Int) (d : StoryCreateData) : Except (List FieldError) Story :=
  if (storyCreateFieldErrors now d).isEmpty then
    match story_create_cross_validate d with
    | some err => .error [err]
    | none => .ok (story_create_apply now d)
  else .error (storyCreateFieldErrors now d)

/-- The writable fields of `StoryUpdateSerializer` for a (possibly partial)
update: `none` means the field was absent from the request. -/
structure StoryUpdateData where
  title : Option String
  status : Option StoryStatus
  duration : Option Nat
  published_at : Option (Option Int)
  expires_at : Option (Option Int)
  is_active : Option Bool
  is_featured : Option Bool
  action_url : Option (Option String)
deriving DecidableEq, Repr

/-- The field-stage errors of `StoryUpdateSerializer.is_valid`: only the
fields present in the (possibly partial) request run their validators. -/
def storyUpdateFieldErrors (now : Int) (u : StoryUpdateData) : List FieldError :=
  (match u.duration with
   | some v => (story_validate_duration v).toList
   | none => [])
  ++ (match u.expires_at with
      | some v => (story_validate_expires_at now v).toList
      | none => [])

/-- DRF `ModelSerializer.update` default applied to the supplied fields. -/
def storyUpdateApply (s : Story) (u : StoryUpdateData) : Story :=
  { s with
      title := u.title.getD s.title,
      status := u.status.getD s.status,
      duration := u.duration.getD s.duration,
      published_at := u.published_at.getD s.published_at,
      expires_at := u.expires_at.getD s.expires_at,
      is_active := u.is_active.getD s.is_active,
      is_featured := u.is_featured.getD s.is_featured,
      action_url := u.action_url.getD s.action_url }

/-- The full `is_valid` + `save` pipeline of `StoryUpdateSerializer` applied
to an existing story: each supplied field runs its validator, then the DRF
default update sets each supplied attribute and saves. The update serializer
has no cross-field `validate` and no auto-stamping of `published_at`. -/
def storyUpdate (now : Int) (s : Story) (u : StoryUpdateData) :
    Except (List FieldError) Story :=
  if (storyUpdateFieldErrors now u).isEmpty then .ok (storyUpdateApply s u)
  else .error (storyUpdateFieldErrors now u)

/-- A `StoryView` row (`apps/story/models.py`): `device` and `user` are
nullable foreign keys; the triple (story, device, user) is declared
`unique_together`. -/
structure StoryView where
  story : Nat
  device : Option Nat
  user : Option Nat
  duration_watched : Nat
  completed : Bool
deriving DecidableEq, Repr

/-- The story tables of the relational store. -/
structure StoryDB where
  stories : List Story
  story_views : List StoryView
deriving DecidableEq, Repr

/-- `Story.objects.get(pk=pk)`. -/
def findStory (db : StoryDB) (pk : Nat) : Option Story :=
  db.stories.find? (fun s => s.id == pk)

/-- Persist an in-place mutation of the story row with the given pk. -/
def StoryDB.updateStory (db : StoryDB) (pk : Nat) (f : Story → Story) : StoryDB :=
  { db with stories := db.stories.map (fun s => if s.id == pk then f s else s) }

/-- The body of a POST to the story-view endpoint
(`StoryViewCreateSerializer` fields). -/
structure StoryViewRequest where
  story : Nat
  device : Option Nat
  user : Option Nat
  duration_watched : Nat
  completed : Bool
deriving DecidableEq, Repr

/-- Whether a stored row holds exactly the request's (story, device, user)
triple (plain column equality, nulls included) — the notion of "the same
view" used for counting rows, and the filter the DRF validator issues when
every checked value is non-null. -/
def sameTriple (r : StoryViewRequest) (v : StoryView) : Bool :=
  v.story == r.story && v.device == r.device && v.user == r.user

/-- SQL equality as the unique constraint sees one nullable column: NULL
compares as distinct from everything, including another NULL. -/
def sqlNullEq (a b : Option Nat) : Bool :=
  match a, b with
  | some x, some y => x == y
  | _, _ => false

/-- Whether inserting the request's row would violate the store's UNIQUE
(story, device, user) constraint against an existing row: all three columns
must compare equal under SQL semantics, so a NULL `device` or `user` on
either side never conflicts. -/
def sqlUniqueConflict (r : StoryViewRequest) (v : StoryView) : Bool :=
  v.story == r.story && sqlNullEq v.device r.device && sqlNullEq v.user r.user

/-- Rows recorded for the request's (story, device, user) triple. -/
def countViews (db : StoryDB) (r : StoryViewRequest) : Nat :=
  (db.story_views.filter (sameTriple r)).length

/-- A JSON envelope response: HTTP status, `success` flag, `message`. -/
structure ApiResponse where
  status : Nat
  success : Bool
  message : String
deriving DecidableEq, Repr

/-- `StoryViewCreateAPIView.create` (`apps/story/views/story_view_create.py`):
`is_valid(raise_exception=True)` first runs the field stage — resolving the
story and rejecting an unpublished one
(`StoryViewCreateSerializer.validate_story`) — then the
`UniqueTogetherValidator` that DRF generates from
`StoryView.Meta.unique_together = [['story', 'device', 'user']]`, which
skips whenever a checked value is null and otherwise rejects 400 when a row
already holds the same triple. Only then does `save()` insert the row; the
store raises `IntegrityError` exactly when the insert violates the UNIQUE
constraint under SQL null semantics (unreachable sequentially, since a
conflicting insert needs all columns non-null, which the validator already
caught), answered 200 "already recorded" without touching the counter. On a
successful insert the story's `view_count` is incremented and 201 returned.
-/
def storyViewCreate (now : Int) (db : StoryDB) (r : StoryViewRequest) :
    StoryDB × ApiResponse :=
  match findStory db r.story with
  | none => (db, ⟨400, false, "Invalid pk - object does not exist"⟩)
  | some st =>
      if !(st.is_published now) then
        (db, ⟨400, false, "Cannot view inactive or unpublished story"⟩)
      else if r.device.isSome && r.user.isSome
          && db.story_views.any (sameTriple r) then
        (db, ⟨400, false, "The fields story, device, user must make a unique set."⟩)
      else if db.story_views.any (sqlUniqueConflict r) then
        (db, ⟨200, true, "Story view already recorded"⟩)
      else
        (⟨(StoryDB.updateStory db r.story Story.increment_view_count).stories,
          db.story_views ++ [⟨r.story, r.device, r.user, r.duration_watched, r.completed⟩]⟩,
         ⟨201, true, "Story view recorded successfully"⟩)

/-- The `data` block of a successful click response. -/
structure ClickData where
  story_id : Nat
  total_clicks : Nat
  action_url : Option String
deriving DecidableEq, Repr

/-- A click-endpoint response: envelope plus optional data block. -/
structure ClickResponse where
  status : Nat
  success : Bool
  message : String
  data : Option ClickData
deriving DecidableEq, Repr

/-- `StoryClickAPIView.post` (`apps/story/views/story_view_create.py`):
404 when the story does not exist, 400 "Story is not available" when the
fetched story's `is_published` is false, otherwise
`increment_click_count` and a 200 response carrying the incremented total
and the story's `action_url`. -/
def storyClick (now : Int) (db : StoryDB) (pk : Nat) : StoryDB × ClickResponse :=
  match findStory db pk with
  | none => (db, ⟨404, false, "Story not found", none⟩)
  | some st =>
      if !(st.is_published now) then
        (db, ⟨400, false, "Story is not available", none⟩)
      else
        (StoryDB.updateStory db pk Story.increment_click_count,
         ⟨200, true, "Story click recorded successfully",
          some ⟨st.id, st.click_count + 1, st.action_url⟩⟩)

/- ===================== Recipe catalog (apps/recipes) ===================== -/

/-- A `RecipeProduct` (ingredient) row as written through
`RecipeProductSerializer` (`apps/recipes/serializers.py`). -/
structure RecipeIngredient where
  product_id : Nat
  quantity : String
  is_optional : Bool
  order : Nat
deriving DecidableEq, Repr

/-- A `RecipeStep` row as written through `RecipeStepSerializer`. -/
structure RecipeStepRow where
  step_number : Nat
  title : String
  description : String
  duration_minutes : Nat
  tips : String
deriving DecidableEq, Repr

/-- The columns of `Recipe` the nested-replacement logic touches, with its
owned ingredient and step collections inlined. -/
structure Recipe where
  id : Nat
  time_minutes : Nat
  view_count : Nat
  ingredients : List RecipeIngredient
  steps : List RecipeStepRow
deriving DecidableEq, Repr

/-- `RecipeCreateUpdateSerializer.validate_ingredients`: non-empty, and
every referenced product must exist and be active (the count of matching
active rows must equal the length of the id list). -/
def recipe_validate_ingredients (products : List Product)
    (value : List RecipeIngredient) : Option FieldError :=
  if value.isEmpty then
    some ⟨"ingredients", "At least one ingredient is required"⟩
  else
    let product_ids := value.map (fun i => i.product_id)
    let existing_products :=
      products.filter (fun p => p.is_active && product_ids.contains p.id)
    if existing_products.length ≠ product_ids.length then
      some ⟨"ingredients", "Some products do not exist or are inactive"⟩
    else none

/-- `RecipeCreateUpdateSerializer.validate_steps`: non-empty with pairwise
distinct `step_number`s (`len(set(...))` comparison). -/
def recipe_validate_steps (value : List RecipeStepRow) : Option FieldError :=
  if value.isEmpty then
    some ⟨"steps", "At least one step is required"⟩
  else
    let step_numbers := value.map (fun s => s.step_number)
    if step_numbers.length ≠ step_numbers.eraseDups.length then
      some ⟨"steps", "Step numbers must be unique"⟩
    else none

/-- A (possibly partial) update request body for
`RecipeCreateUpdateSerializer`: `none` means the field was absent. -/
structure RecipeUpdateData where
  ingredients : Option (List RecipeIngredient)
  steps : Option (List RecipeStepRow)
  time_minutes : Option Nat
deriving DecidableEq, Repr

/-- The field-stage errors of `RecipeCreateUpdateSerializer.is_valid` on an
update: validators run for the supplied nested collections. -/
def recipeUpdateFieldErrors (products : List Product) (d : RecipeUpdateData) :
    List FieldError :=
  (match d.ingredients with
   | some v => (recipe_validate_ingredients products v).toList
   | none => [])
  ++ (match d.steps with
      | some v => (recipe_validate_steps v).toList
      | none => [])

/-- `RecipeCreateUpdateSerializer.update`: basic fields are assigned, then a
supplied `ingredients` (resp. `steps`) payload deletes every existing row of
that collection and recreates one row per payload entry; an absent payload
leaves the collection untouched. -/
def recipeUpdateApply (rec : Recipe) (d : RecipeUpdateData) : Recipe :=
  { rec with
    time_minutes := d.time_minutes.getD rec.time_minutes,
    ingredients :=
      match d.ingredients with
      | some v => v
      | none => rec.ingredients,
    steps :=
      match d.steps with
      | some v => v
      | none => rec.steps }

/-- The full `is_valid` + `save` pipeline of a recipe update. -/
def recipeUpdate (products : List Product) (rec : Recipe)
    (d : RecipeUpdateData) : Except (List FieldError) Recipe :=
  if (recipeUpdateFieldErrors products d).isEmpty then
    .ok (recipeUpdateApply rec d)
  else .error (recipeUpdateFieldErrors products d)

/- ===================== User service (apps/users) ===================== -/

/-- The columns of `User` touched by login. The password hash check
(`check_password`) is external; it is modelled by storing the reference
password and comparing for equality. -/
structure User where
  id : Nat
  username : String
  email : String
  phone_number : String
  password : String
  is_active : Bool
deriving DecidableEq, Repr

/-- `user.check_password(password)` (external hash check, modelled as
comparison against the stored reference password). -/
def check_password (u : User) (password : String) : Bool :=
  u.password == password

/-- `identifier.replace("+", "").replace("-", "").replace(" ", "")`. -/
def strip_phone_chars (s : String) : String :=
  (s.toList.filter (fun c => !(c == '+' || c == '-' || c == ' '))).asString

/-- Python `str.isdigit`: non-empty and all digit characters. -/
def py_isdigit (s : String) : Bool :=
  !s.toList.isEmpty && s.toList.all Char.isDigit

/-- Whether the identifier is routed to the phone-number lookup. -/
def phone_like (identifier : String) : Bool :=
  py_isdigit (strip_phone_chars identifier)

/-- Python `"@" in identifier`: the character occurs in the string. -/
def contains_at_sign (s : String) : Bool :=
  s.toList.contains '@'

/-- The `try` block of `LoginSerializer.validate`
(`apps/users/serializers/user.py`): email lookup when the identifier
contains "@", else phone lookup when the stripped identifier is all digits,
else username lookup. -/
def resolve_user (users : List User) (identifier : String) : Option User :=
  if contains_at_sign identifier then
    users.find? (fun u => u.email == identifier)
  else if phone_like identifier then
    users.find? (fun u => u.phone_number == identifier)
  else
    users.find? (fun u => u.username == identifier)

/-- `LoginSerializer.validate`: falsy-field check, lookup (a miss is
"Invalid credentials."), password check (a mismatch is the identical
"Invalid credentials."), then the active-account check. -/
def loginValidate (users : List User) (identifier password : String) :
    Except String User :=
  if identifier = "" ∨ password = "" then
    .error "Both identifier and password are required."
  else
    match resolve_user users identifier with
    | none => .error "Invalid credentials."
    | some user =>
        if !(check_password user password) then .error "Invalid credentials."
        else if !user.is_active then .error "User account is disabled."
        else .ok user

/- ===================== Theorems ===================== -/

/-- Helper: mapping an update over exactly the rows matched by a predicate
that the update preserves commutes with `find?`. -/
theorem find?_map_if {α : Type} (p : α → Bool) (f : α → α)
    (hp : ∀ a, p (f a) = p a) (l : List α) :
    (l.map (fun a => if p a then f a else a)).find? p = (l.find? p).map f := by
  induction l with
  | nil => rfl
  | cons a t ih =>
    by_cases h : p a
    · simp [List.find?_cons, h, hp]
    · simp [List.find?_cons, h, hp, ih]

/-- C1: after any product save, the `pre_save` hook stores
`real_price = price - price*discount/100` for every discount in [0,100],
and the incoming (client-supplied) `real_price` has no influence on the
stored value. -/
theorem c1_real_price_recomputed (p : Product)
    (h0 : 0 ≤ p.discount) (h100 : p.discount ≤ 100) :
    (update_real_price_field p).real_price
        = p.price - p.price * (p.discount : ℚ) / 100 ∧
    ∀ r : ℚ, (update_real_price_field { p with real_price := r }).real_price
        = (update_real_price_field p).real_price := by
  constructor
  · unfold update_real_price_field
    by_cases h : p.discount > 0
    · simp [h]
    · have hz : p.discount = 0 := le_antisymm (not_lt.mp h) h0
      simp [h, hz]
  · intro r
    unfold update_real_price_field
    by_cases h : p.discount > 0 <;> simp [h]

/-- Witness for C1 at the spec's example: price 100.00, discount 20,
client-supplied real_price 55 → stored real_price 80.00. -/
theorem c1_real_price_recomputed_witness :
    (update_real_price_field ⟨1, 100, 20, 55, true⟩).real_price = 80 := by
  have h := c1_real_price_recomputed ⟨1, 100, 20, 55, true⟩ (by decide) (by decide)
  rw [h.1]
  norm_num

/-- Helper: persisting an id-preserving row mutation commutes with the
primary-key lookup. -/
theorem findStory_updateStory (db : StoryDB) (pk : Nat) (f : Story → Story)
    (hf : ∀ s, (f s).id = s.id) :
    findStory (db.updateStory pk f) pk = (findStory db pk).map f := by
  unfold findStory StoryDB.updateStory
  exact find?_map_if _ f (fun a => by rw [hf]) _

/-- C3: `is_expired` holds exactly when `expires_at` is set and strictly
before the current time, and `is_published` holds exactly when the status is
PUBLISHED, the story is active and not expired. -/
theorem c3_derived_story_properties (s : Story) (now : Int) :
    (s.is_expired now = true ↔ ∃ e, s.expires_at = some e ∧ e < now) ∧
    (s.is_published now = true ↔
      s.status = StoryStatus.PUBLISHED ∧ s.is_active = true ∧
        s.is_expired now = false) := by
  constructor
  · cases h : s.expires_at with
    | none => simp [Story.is_expired, h]
    | some e => simp [Story.is_expired, h]
  · simp [Story.is_published, Bool.and_eq_true, beq_iff_eq, and_assoc,
      Bool.not_eq_true']

/-- C4 counterexample: updating a DRAFT story (no `published_at`) to
PUBLISHED through `StoryUpdateSerializer` at time 1000 succeeds but leaves
`published_at` null — the update path never auto-stamps it. -/
theorem c4_update_no_autostamp_counterexample :
    ∃ st' : Story,
      storyUpdate 1000
          ⟨7, "Promo", StoryStatus.DRAFT, 5, none, none, true, false, none, 0, 0⟩
          ⟨none, some StoryStatus.PUBLISHED, none, none, none, none, none, none⟩
        = .ok st' ∧
      st'.status = StoryStatus.PUBLISHED ∧
      st'.published_at = none ∧ st'.published_at ≠ some 1000 := by
  exact ⟨⟨7, "Promo", StoryStatus.PUBLISHED, 5, none, none, true, false, none, 0, 0⟩,
    rfl, rfl, rfl, by decide⟩

/-- C4 (amended to the create path): a create whose validated status is
PUBLISHED and whose `published_at` was not supplied stores
`published_at = now`, and — when additionally `is_active` is true and no
`expires_at` is supplied — the created story's `is_published` is true. -/
theorem c4_create_autostamps_published_at (now : Int) (d : StoryCreateData)
    (st : Story) (hok : storyCreate now d = .ok st)
    (hpub : d.status = StoryStatus.PUBLISHED)
    (hnone : d.published_at = none) :
    st.published_at = some now ∧
    (d.is_active = true → d.expires_at = none → st.is_published now = true) := by
  unfold storyCreate at hok
  by_cases hemp : (storyCreateFieldErrors now d).isEmpty
  · rw [if_pos hemp] at hok
    cases hcross : story_create_cross_validate d <;> rw [hcross] at hok
    · have hst : story_create_apply now d = st := by
        injection hok
      subst hst
      constructor
      · simp [story_create_apply, hpub, hnone]
      · intro hact hexp
        simp [story_create_apply, hpub, hnone, hact, hexp,
          Story.is_published, Story.is_expired]
    · exact absurd hok (by simp)
  · rw [if_neg hemp] at hok
    exact absurd hok (by simp)

/-- Witness for C4's amended theorem: creating
`{status: PUBLISHED}` with no `published_at` at time 500 yields
`published_at = 500` and `is_published = true`. -/
theorem c4_create_autostamps_published_at_witness :
    ∃ st : Story,
      storyCreate 500 ⟨"S", StoryStatus.PUBLISHED, 5, none, none, true, false, none⟩
          = .ok st ∧
      st.published_at = some 500 ∧ st.is_published 500 = true := by
  refine ⟨_, rfl, ?_⟩
  have h := c4_create_autostamps_published_at 500
    ⟨"S", StoryStatus.PUBLISHED, 5, none, none, true, false, none⟩ _ rfl rfl rfl
  exact ⟨h.1, h.2 rfl rfl⟩

/-- C9: a view-creation request whose target story exists but is not
published is rejected with a 400 validation error and the database is left
unchanged (no `StoryView` row, no counter change). -/
theorem c9_view_requires_published (now : Int) (db : StoryDB)
    (r : StoryViewRequest) (st : Story)
    (hfind : findStory db r.story = some st)
    (hunpub : st.is_published now = false) :
    storyViewCreate now db r
      = (db, ⟨400, false, "Cannot view inactive or unpublished story"⟩) := by
  unfold storyViewCreate
  rw [hfind]
  simp [hunpub]

/-- Witness for C9: a DRAFT story's view request is rejected and the store
keeps zero view rows. -/
theorem c9_view_requires_published_witness :
    storyViewCreate 10
        ⟨[⟨3, "Draft", StoryStatus.DRAFT, 5, none, none, true, false, none, 0, 0⟩], []⟩
        ⟨3, some 1, none, 5, false⟩
      = (⟨[⟨3, "Draft", StoryStatus.DRAFT, 5, none, none, true, false, none, 0, 0⟩], []⟩,
         ⟨400, false, "Cannot view inactive or unpublished story"⟩) := by
  exact c9_view_requires_published 10 _ _
    ⟨3, "Draft", StoryStatus.DRAFT, 5, none, none, true, false, none, 0, 0⟩ rfl rfl

/-- C8: for an existing story, the click endpoint answers 400 exactly when
the story's derived `is_published` is false; when it is published, the
stored `click_count` is incremented by exactly one and the 200 response
carries the story's `action_url`. -/
theorem c8_click_requires_published (now : Int) (db : StoryDB) (pk : Nat)
    (st : Story) (hfind : findStory db pk = some st) :
    (st.is_published now = false →
        storyClick now db pk = (db, ⟨400, false, "Story is not available", none⟩)) ∧
    (st.is_published now = true →
        (findStory (storyClick now db pk).1 pk).map Story.click_count
            = some (st.click_count + 1) ∧
        (storyClick now db pk).2
            = ⟨200, true, "Story click recorded successfully",
               some ⟨st.id, st.click_count + 1, st.action_url⟩⟩) := by
  constructor
  · intro hunpub
    unfold storyClick
    rw [hfind]
    simp [hunpub]
  · intro hpub
    have hstep : storyClick now db pk
        = (StoryDB.updateStory db pk Story.increment_click_count,
           ⟨200, true, "Story click recorded successfully",
            some ⟨st.id, st.click_count + 1, st.action_url⟩⟩) := by
      unfold storyClick
      rw [hfind]
      simp [hpub]
    rw [hstep]
    refine ⟨?_, rfl⟩
    rw [findStory_updateStory db pk Story.increment_click_count (fun s => rfl), hfind]
    rfl

/-- Witness for C8: clicking a published story increments its click count
from 4 to 5 and returns its action URL; the same story expired is refused. -/
theorem c8_click_requires_published_witness :
    ((⟨[⟨2, "Sale", StoryStatus.PUBLISHED, 5, some 0, none, true, false,
          some "https://x", 9, 4⟩], []⟩ : StoryDB).stories.find?
            (fun s => s.id == 2)).isSome = true ∧
    (findStory (storyClick 50
          ⟨[⟨2, "Sale", StoryStatus.PUBLISHED, 5, some 0, none, true, false,
             some "https://x", 9, 4⟩], []⟩ 2).1 2).map Story.click_count
        = some 5 := by
  constructor
  · rfl
  · have h := c8_click_requires_published 50
      ⟨[⟨2, "Sale", StoryStatus.PUBLISHED, 5, some 0, none, true, false,
         some "https://x", 9, 4⟩], []⟩ 2
      ⟨2, "Sale", StoryStatus.PUBLISHED, 5, some 0, none, true, false,
       some "https://x", 9, 4⟩ rfl
    exact (h.2 rfl).1


/-- C2: evaluation of the view endpoint at the claim's failing inputs, for a
published story with no prior views. A second POST of the same non-null
(story, device, user) triple is rejected 400 by the uniqueness validator
with the database unchanged — never answered 200 with the existing data —
and with null device and user the second POST instead inserts a second row
and increments `view_count` a second time (201), so the claimed
one-row/one-increment/200 outcome holds on neither path. -/
theorem c2_duplicate_view_code_bug :
    (storyViewCreate 50
        ⟨[⟨1, "S", StoryStatus.PUBLISHED, 5, some 0, none, true, false, none, 0, 0⟩],
         []⟩ ⟨1, some 1, some 1, 5, true⟩).2.status = 201 ∧
    storyViewCreate 50
        (storyViewCreate 50
          ⟨[⟨1, "S", StoryStatus.PUBLISHED, 5, some 0, none, true, false, none, 0, 0⟩],
           []⟩ ⟨1, some 1, some 1, 5, true⟩).1 ⟨1, some 1, some 1, 5, true⟩
      = ((storyViewCreate 50
            ⟨[⟨1, "S", StoryStatus.PUBLISHED, 5, some 0, none, true, false, none, 0, 0⟩],
             []⟩ ⟨1, some 1, some 1, 5, true⟩).1,
         ⟨400, false, "The fields story, device, user must make a unique set."⟩) ∧
    (storyViewCreate 50
        (storyViewCreate 50
          ⟨[⟨1, "S", StoryStatus.PUBLISHED, 5, some 0, none, true, false, none, 0, 0⟩],
           []⟩ ⟨1, none, none, 5, true⟩).1 ⟨1, none, none, 5, true⟩).2.status = 201 ∧
    countViews (storyViewCreate 50
        (storyViewCreate 50
          ⟨[⟨1, "S", StoryStatus.PUBLISHED, 5, some 0, none, true, false, none, 0, 0⟩],
           []⟩ ⟨1, none, none, 5, true⟩).1 ⟨1, none, none, 5, true⟩).1
        ⟨1, none, none, 5, true⟩ = 2 ∧
    (findStory (storyViewCreate 50
        (storyViewCreate 50
          ⟨[⟨1, "S", StoryStatus.PUBLISHED, 5, some 0, none, true, false, none, 0, 0⟩],
           []⟩ ⟨1, none, none, 5, true⟩).1 ⟨1, none, none, 5, true⟩).1 1).map
        Story.view_count = some 2 := by
  exact ⟨rfl, rfl, rfl, rfl, rfl⟩

/-- C5: a recipe update that supplies an `ingredients` (resp. `steps`)
payload fully replaces the prior collection: the resulting count equals the
payload's length, independent of the prior rows. -/
theorem c5_nested_collections_replaced (products : List Product)
    (rec rec' : Recipe) (d : RecipeUpdateData)
    (hok : recipeUpdate products rec d = .ok rec') :
    (∀ ing, d.ingredients = some ing → rec'.ingredients.length = ing.length) ∧
    (∀ stps, d.steps = some stps → rec'.steps.length = stps.length) := by
  unfold recipeUpdate at hok
  by_cases hemp : (recipeUpdateFieldErrors products d).isEmpty
  · rw [if_pos hemp] at hok
    have h : recipeUpdateApply rec d = rec' := by injection hok
    subst h
    constructor
    · intro ing hing
      simp [recipeUpdateApply, hing]
    · intro stps hstps
      simp [recipeUpdateApply, hstps]
  · rw [if_neg hemp] at hok
    exact absurd hok (by simp)

/-- Witness for C5: a recipe holding 2 ingredients and 1 step, updated with
1 ingredient and 3 steps, ends with exactly 1 and 3 rows (not 3 and 4). -/
theorem c5_nested_collections_replaced_witness :
    ∃ rec' : Recipe,
      recipeUpdate [⟨11, 5, 0, 5, true⟩]
          ⟨1, 10, 0, [⟨11, "2 cups", false, 1⟩, ⟨11, "1 tsp", true, 2⟩],
           [⟨1, "Mix", "mix all", 5, ""⟩]⟩
          ⟨some [⟨11, "3 cups", false, 1⟩],
           some [⟨1, "Chop", "", 2, ""⟩, ⟨2, "Fry", "", 3, ""⟩, ⟨3, "Serve", "", 1, ""⟩],
           none⟩
        = .ok rec' ∧
      rec'.ingredients.length = 1 ∧ rec'.steps.length = 3 := by
  refine ⟨_, rfl, ?_⟩
  have h := c5_nested_collections_replaced [⟨11, 5, 0, 5, true⟩]
    ⟨1, 10, 0, [⟨11, "2 cups", false, 1⟩, ⟨11, "1 tsp", true, 2⟩],
     [⟨1, "Mix", "mix all", 5, ""⟩]⟩ _
    ⟨some [⟨11, "3 cups", false, 1⟩],
     some [⟨1, "Chop", "", 2, ""⟩, ⟨2, "Fry", "", 3, ""⟩, ⟨3, "Serve", "", 1, ""⟩],
     none⟩ rfl
  exact ⟨h.1 _ rfl, h.2 _ rfl⟩

/-- Helper: soft-deleting commutes with the primary-key lookup. -/
theorem findProduct_set_inactive (db : ProductDB) (pk : Nat) :
    findProduct
        { db with
          products := db.products.map
            (fun q => if q.id == pk then { q with is_active := false } else q) } pk
      = (findProduct db pk).map (fun q => { q with is_active := false }) := by
  unfold findProduct
  exact find?_map_if (fun p : Product => p.id == pk)
    (fun q => { q with is_active := false }) (fun a => rfl) db.products

/-- C6: soft-deleting an existing product answers 204, leaves the media
table and the products row count untouched, keeps the row retrievable by
direct lookup with `is_active = false` and unchanged otherwise, and removes
it from the active listing queryset. -/
theorem c6_soft_delete_product (db : ProductDB) (pk : Nat) (p : Product)
    (hfind : findProduct db pk = some p) :
    (productDestroy db pk).2 = 204 ∧
    (productDestroy db pk).1.media = db.media ∧
    (productDestroy db pk).1.products.length = db.products.length ∧
    productRetrieve (productDestroy db pk).1 pk
        = some { p with is_active := false } ∧
    ∀ q ∈ productListQueryset (productDestroy db pk).1, q.id ≠ pk := by
  have hstep : productDestroy db pk
      = ({ db with
            products := db.products.map
              (fun q => if q.id == pk then { q with is_active := false } else q) },
         204) := by
    unfold productDestroy
    rw [hfind]
  rw [hstep]
  refine ⟨rfl, rfl, by simp, ?_, ?_⟩
  · show productRetrieve _ pk = _
    unfold productRetrieve
    rw [findProduct_set_inactive, hfind]
    rfl
  · intro q hq hqpk
    unfold productListQueryset at hq
    rw [List.mem_filter] at hq
    obtain ⟨hmem, hact⟩ := hq
    rw [List.mem_map] at hmem
    obtain ⟨a, _, ha⟩ := hmem
    by_cases h : (a.id == pk) = true
    · rw [if_pos h] at ha
      subst ha
      simp at hact
    · rw [if_neg h] at ha
      subst ha
      exact h (by simp [hqpk])

/-- Witness for C6: deleting product 1 keeps its row and media, flips
`is_active`, and empties the active listing. -/
theorem c6_soft_delete_product_witness :
    (productDestroy ⟨[⟨1, 10, 0, 10, true⟩], [⟨1, "img.png"⟩]⟩ 1).2 = 204 ∧
    (productDestroy ⟨[⟨1, 10, 0, 10, true⟩], [⟨1, "img.png"⟩]⟩ 1).1.media
        = [⟨1, "img.png"⟩] ∧
    productRetrieve (productDestroy ⟨[⟨1, 10, 0, 10, true⟩], [⟨1, "img.png"⟩]⟩ 1).1 1
        = some ⟨1, 10, 0, 10, false⟩ := by
  have h := c6_soft_delete_product ⟨[⟨1, 10, 0, 10, true⟩], [⟨1, "img.png"⟩]⟩ 1
    ⟨1, 10, 0, 10, true⟩ rfl
  exact ⟨h.1, h.2.1, h.2.2.2.1⟩

/-- C7: the login identifier is resolved by email lookup when it contains
"@", otherwise by phone lookup when it is all digits after stripping
'+', '-' and spaces, otherwise by username lookup; and every wrong-password
attempt (non-empty credentials) fails with the identical generic message
regardless of which lookup matched. -/
theorem c7_login_resolution_order (users : List User)
    (identifier password : String) :
    (contains_at_sign identifier = true →
        resolve_user users identifier
          = users.find? (fun u => u.email == identifier)) ∧
    (contains_at_sign identifier = false → phone_like identifier = true →
        resolve_user users identifier
          = users.find? (fun u => u.phone_number == identifier)) ∧
    (contains_at_sign identifier = false → phone_like identifier = false →
        resolve_user users identifier
          = users.find? (fun u => u.username == identifier)) ∧
    (∀ u : User, identifier ≠ "" → password ≠ "" →
        resolve_user users identifier = some u →
        check_password u password = false →
        loginValidate users identifier password
          = .error "Invalid credentials.") := by
  refine ⟨?_, ?_, ?_, ?_⟩
  · intro h
    simp [resolve_user, h]
  · intro h hp
    simp [resolve_user, h, hp]
  · intro h hp
    simp [resolve_user, h, hp]
  · intro u hid hpw hres hchk
    unfold loginValidate
    rw [if_neg (by simp [hid, hpw]), hres]
    simp [hchk]

/-- Witness for C7 at the spec's three example identifiers against one
account: each resolves through its stated lookup, and a wrong password on
the username path yields the generic error. -/
theorem c7_login_resolution_order_witness :
    resolve_user [⟨1, "alice", "user@example.com", "+998901234567", "pw", true⟩]
        "user@example.com"
      = [⟨1, "alice", "user@example.com", "+998901234567", "pw", true⟩].find?
          (fun u => u.email == "user@example.com") ∧
    resolve_user [⟨1, "alice", "user@example.com", "+998901234567", "pw", true⟩]
        "+998901234567"
      = [⟨1, "alice", "user@example.com", "+998901234567", "pw", true⟩].find?
          (fun u => u.phone_number == "+998901234567") ∧
    resolve_user [⟨1, "alice", "user@example.com", "+998901234567", "pw", true⟩]
        "alice"
      = [⟨1, "alice", "user@example.com", "+998901234567", "pw", true⟩].find?
          (fun u => u.username == "alice") ∧
    loginValidate [⟨1, "alice", "user@example.com", "+998901234567", "pw", true⟩]
        "alice" "wrong" = .error "Invalid credentials." := by
  refine ⟨(c7_login_resolution_order _ "user@example.com" "wrong").1 (by decide),
    (c7_login_resolution_order _ "+998901234567" "wrong").2.1 (by decide) (by decide),
    (c7_login_resolution_order _ "alice" "wrong").2.2.1 (by decide) (by decide),
    (c7_login_resolution_order _ "alice" "wrong").2.2.2
      ⟨1, "alice", "user@example.com", "+998901234567", "pw", true⟩
      (by decide) (by decide) (by decide) (by decide)⟩

/-- C10: a story create or update supplying an `expires_at` that is not
strictly in the future is rejected with the `expires_at` field error and no
story is written — independent of `published_at`. -/
theorem c10_expires_at_must_be_future (now : Int) (d : StoryCreateData)
    (s : Story) (u : StoryUpdateData) (e e2 : Int) :
    (d.expires_at = some e → e ≤ now →
      ∃ errs, storyCreate now d = .error errs ∧
        (⟨"expires_at", "Expiration date must be in the future"⟩ : FieldError)
          ∈ errs) ∧
    (u.expires_at = some (some e2) → e2 ≤ now →
      ∃ errs, storyUpdate now s u = .error errs ∧
        (⟨"expires_at", "Expiration date must be in the future"⟩ : FieldError)
          ∈ errs) := by
  constructor
  · intro hexp he
    have hval : story_validate_expires_at now d.expires_at
        = some ⟨"expires_at", "Expiration date must be in the future"⟩ := by
      rw [hexp]
      simp [story_validate_expires_at, he]
    have hne : (storyCreateFieldErrors now d).isEmpty = false := by
      unfold storyCreateFieldErrors
      rw [hval]
      cases story_validate_duration d.duration <;> simp
    refine ⟨storyCreateFieldErrors now d, ?_, ?_⟩
    · unfold storyCreate
      rw [if_neg (by simp [hne])]
    · unfold storyCreateFieldErrors
      rw [hval]
      simp
  · intro hexp he
    have hval : story_validate_expires_at now (some e2)
        = some ⟨"expires_at", "Expiration date must be in the future"⟩ := by
      simp [story_validate_expires_at, he]
    have hmatch :
        (match u.expires_at with
         | some v => (story_validate_expires_at now v).toList
         | none => ([] : List FieldError))
          = [⟨"expires_at", "Expiration date must be in the future"⟩] := by
      rw [hexp]
      simp [hval]
    have hne : (storyUpdateFieldErrors now u).isEmpty = false := by
      unfold storyUpdateFieldErrors
      rw [hmatch]
      cases hdu : (match u.duration with
                   | some v => (story_validate_duration v).toList
                   | none => ([] : List FieldError)) <;> simp
    refine ⟨storyUpdateFieldErrors now u, ?_, ?_⟩
    · unfold storyUpdate
      rw [if_neg (by simp [hne])]
    · unfold storyUpdateFieldErrors
      rw [hmatch]
      simp

/-- Witness for C10: at time 100, creating with
`published_at = 10, expires_at = 50` (expiry after publication but in the
past) is rejected, and so is a partial update supplying `expires_at = 50`. -/
theorem c10_expires_at_must_be_future_witness :
    (∃ errs, storyCreate 100 ⟨"T", StoryStatus.DRAFT, 5, some 10, some 50,
          true, false, none⟩ = .error errs ∧
        (⟨"expires_at", "Expiration date must be in the future"⟩ : FieldError)
          ∈ errs) ∧
    (∃ errs, storyUpdate 100
          ⟨7, "Promo", StoryStatus.DRAFT, 5, some 10, none, true, false, none, 0, 0⟩
          ⟨none, none, none, none, some (some 50), none, none, none⟩
        = .error errs ∧
        (⟨"expires_at", "Expiration date must be in the future"⟩ : FieldError)
          ∈ errs) := by
  have h := c10_expires_at_must_be_future 100
    ⟨"T", StoryStatus.DRAFT, 5, some 10, some 50, true, false, none⟩
    ⟨7, "Promo", StoryStatus.DRAFT, 5, some 10, none, true, false, none, 0, 0⟩
    ⟨none, none, none, none, some (some 50), none, none, none⟩ 50 50
  exact ⟨h.1 rfl (by decide), h.2 rfl (by decide)⟩
